import Mathlib

/-
  Verification development for the chart-image analyzer
  (src/chart_analyzer.py, class ChartAnalyzer).

  The Python module is embedded shallowly:
  * a grayscale buffer is a row-major list of rows of natural-number
    intensities (NumPy 2-D uint8 array);
  * floating-point arithmetic of the source (percentile, least-squares
    slope, thresholds) is idealised by exact rational arithmetic; all
    rationals are built with Rat.divInt over integer numerators and
    denominators, so every definition evaluates by kernel reduction;
  * calls into external libraries (cv2 colour conversion, Canny, the
    morphological opening, contour extraction plus polygon
    approximation, PIL image decoding) are parameters of the embedding:
    the repository treats their outputs as opaque data;
  * the dictionary `results` that perform_chart_analysis mutates is the
    structure Results below; dictionary keys that are absent until a
    stage writes them (technical_analysis content, signal_score) are
    Option-valued;
  * a Python exception inside the try-block of perform_chart_analysis
    is modelled by Except-valued stage functions in
    perform_chart_analysis_exc, which reproduces the source's control
    flow: the except-handler sees the partially updated dictionary.
-/

/-- A grayscale buffer: row-major rows of pixel intensities. -/
abbrev GrayImage := List (List ℕ)

/-- Result of analyze_trend_direction: the dict with keys direction and
confidence. -/
structure TrendResult where
  direction : String
  confidence : ℤ
deriving DecidableEq

/-- One support/resistance descriptor emitted by
find_support_resistance_levels. -/
structure Level where
  level : String
  strength : ℤ
deriving DecidableEq

/-- The three insight sentences produced by generate_technical_insights. -/
structure Insights where
  trend_analysis : String
  pattern_analysis : String
  risk_management : String
deriving DecidableEq

/-- The dict returned by generate_trading_signal. -/
structure SignalResult where
  overall_signal : String
  confidence : ℤ
  recommendation : String
  signal_score : ℤ
deriving DecidableEq

/-- The results dictionary assembled by perform_chart_analysis.
technical_analysis is initialised to the empty dict and signal_score is
absent until results.update merges the signal dict, hence both are
Option-valued. -/
structure Results where
  overall_signal : String
  confidence : ℤ
  trend_direction : String
  support_resistance : List Level
  patterns_detected : List String
  technical_analysis : Option Insights
  recommendation : String
  signal_score : Option ℤ
deriving DecidableEq

/-- The initial `results` dictionary of perform_chart_analysis. -/
def initResults : Results :=
  { overall_signal := "HOLD"
    confidence := 0
    trend_direction := "NEUTRAL"
    support_resistance := []
    patterns_detected := []
    technical_analysis := none
    recommendation := ""
    signal_score := none }

/-- Auxiliary scan for the Python substring operator. -/
def containsSub (sub : List Char) : List Char → Bool
  | [] => sub.isPrefixOf []
  | c :: rest => sub.isPrefixOf (c :: rest) || containsSub sub rest

/-- The Python expression `sub in s` on strings. -/
def pyContains (sub s : String) : Bool :=
  containsSub sub.data s.data

/-- The column where the right 30% region starts: int(width * 0.7). -/
def recentStart (width : ℕ) : ℕ :=
  width * 7 / 10

/-- gray_image[:, int(width*0.7):], the rightmost 30% of columns. -/
def recentRegion (gray : GrayImage) : GrayImage :=
  gray.map (fun row => row.drop (recentStart (gray.headD []).length))

/-- np.percentile(values, 85) with NumPy's default linear interpolation:
with the values sorted ascending and h = (n-1)*85/100, the percentile is
v[floor h] + (h - floor h) * (v[floor h + 1] - v[floor h]).  Both terms
are placed over the common denominator 100, so the whole value is one
exact Rat.divInt. -/
def percentile85 (values : List ℕ) : ℚ :=
  let sorted := List.insertionSort (· ≤ ·) values
  let n := sorted.length
  if n = 0 then 0
  else
    let lo := (n - 1) * 85 / 100
    let r : ℤ := ((n - 1) * 85 % 100 : ℕ)
    let vlo : ℤ := (sorted.getD lo 0 : ℕ)
    let vhi : ℤ := (sorted.getD (lo + 1) (sorted.getD lo 0) : ℕ)
    Rat.divInt (100 * vlo + r * (vhi - vlo)) 100

/-- np.where(recent_region > bright_threshold): the (row, column)
coordinates, in row-major order, of the region pixels strictly brighter
than the region's 85th percentile. -/
def brightPixels (gray : GrayImage) : List (ℕ × ℕ) :=
  let region := recentRegion gray
  let thr := percentile85 region.flatten
  region.enum.flatMap fun rc =>
    rc.2.enum.filterMap fun cv =>
      if (cv.2 : ℚ) > thr then some (rc.1, cv.1) else none

/-- The slope of np.polyfit(x_coords, y_coords, 1): the least-squares
line fitting row as a function of column has slope
(n*Σxy - Σx*Σy) / (n*Σx² - (Σx)²).  Each point is (row, column).
Rat.divInt returns 0 on a zero denominator (the degenerate fit where
every bright pixel shares one column). -/
def lstSlope (pts : List (ℕ × ℕ)) : ℚ :=
  let n : ℤ := pts.length
  let sx : ℤ := ((pts.map Prod.snd).sum : ℕ)
  let sy : ℤ := ((pts.map Prod.fst).sum : ℕ)
  let sxy : ℤ := ((pts.map (fun p => p.1 * p.2)).sum : ℕ)
  let sxx : ℤ := ((pts.map (fun p => p.2 * p.2)).sum : ℕ)
  Rat.divInt (n * sxy - sx * sy) (n * sxx - sx * sx)

/-- ChartAnalyzer.analyze_trend_direction.  Negative slope means rows
decrease to the right, i.e. price rising in image coordinates. -/
def analyze_trend_direction (gray : GrayImage) : TrendResult :=
  let bright := brightPixels gray
  if bright.length > 10 then
    if bright.length > 1 then
      let slope := lstSlope bright
      if slope < -2 then ⟨"STRONG_UPTREND", 80⟩
      else if slope < Rat.divInt (-1) 2 then ⟨"UPTREND", 65⟩
      else if slope > 2 then ⟨"STRONG_DOWNTREND", 80⟩
      else if slope > Rat.divInt 1 2 then ⟨"DOWNTREND", 65⟩
      else ⟨"SIDEWAYS", 50⟩
    else ⟨"NEUTRAL", 30⟩
  else ⟨"NEUTRAL", 30⟩

/-- One contour as the analyzer consumes it: the number of points that
cv2.findContours returned for it, and the vertex count of
cv2.approxPolyDP(contour, 0.02 * cv2.arcLength(contour, True), True).
Both numbers come from the external library. -/
structure Contour where
  npoints : ℕ
  approxVertices : ℕ
deriving DecidableEq

/-- np.sum(m > 0): how many strictly positive entries a buffer has. -/
def countPositive (m : GrayImage) : ℕ :=
  (m.map (fun row => (row.filter (fun v => 0 < v)).length)).sum

/-- The pattern labels in detection order, before truncation: the
horizontal-line label first, then one label per contour with more than
10 points whose polygon approximation has exactly 3 or 4 vertices. -/
def emittedPatterns (horizontalStrength : ℕ) (contours : List Contour) : List String :=
  (if horizontalStrength > 100 then ["Strong Support/Resistance Levels"] else []) ++
    contours.flatMap fun c =>
      if c.npoints > 10 then
        if c.approxVertices = 3 then ["Triangle Pattern"]
        else if c.approxVertices = 4 then ["Rectangle/Channel Pattern"]
        else []
      else []

/-- ChartAnalyzer.detect_chart_patterns, given the strength of the
morphologically opened edge map and the approximated contours. -/
def detect_chart_patterns (horizontalStrength : ℕ) (contours : List Contour) : List String :=
  (emittedPatterns horizontalStrength contours).take 5

/-- The module-level fallback peak detector: every interior index whose
value is strictly greater than both neighbours and at least the minimum
height (data[i] >= height), scanned in ascending order. -/
def find_peaks (data : List ℕ) (height : Option ℚ) : List ℕ :=
  (List.range' 1 (data.length - 2)).filter fun i =>
    decide (data.getD i 0 > data.getD (i - 1) 0) &&
    decide (data.getD i 0 > data.getD (i + 1) 0) &&
    (match height with
     | none => true
     | some h => decide ((data.getD i 0 : ℚ) ≥ h))

/-- np.sum(gray_image, axis=1), the row-wise intensity sums. -/
def horizontalProjection (gray : GrayImage) : List ℕ :=
  gray.map List.sum

/-- np.max over a projection (0 for an empty list). -/
def listMax (l : List ℕ) : ℕ :=
  l.foldr max 0

/-- The minimum peak height np.max(horizontal_projection) * 0.3. -/
def peakHeight (gray : GrayImage) : ℚ :=
  Rat.divInt (3 * (listMax (horizontalProjection gray) : ℤ)) 10

/-- The percentage peak/height*100 rendered with one decimal, as the
f-string {peak/height*100:.1f} does: round half to even at the tenths
digit, here computed exactly on peak*1000/height. -/
def fmtTenth (peak height : ℕ) : String :=
  let n := peak * 1000
  let q := n / height
  let r := n % height
  let t :=
    if 2 * r < height then q
    else if 2 * r > height then q + 1
    else if q % 2 = 0 then q else q + 1
  toString (t / 10) ++ "." ++ toString (t % 10)

/-- ChartAnalyzer.find_support_resistance_levels: peaks of the row-sum
projection above 30% of its maximum, first 5 in ascending row order,
each with its position label and raw projection strength. -/
def find_support_resistance_levels (gray : GrayImage) : List Level :=
  let proj := horizontalProjection gray
  let peaks := find_peaks proj (some (peakHeight gray))
  (peaks.take 5).map fun peak =>
    { level := "Level at " ++ fmtTenth peak gray.length ++ "% of chart height"
      strength := (proj.getD peak 0 : ℤ) }

/-- The final score-to-signal mapping at the end of
generate_trading_signal: the if/elif chain that turns the accumulated
signal_score into the label and confidence. -/
def scoreToSignal (signal_score : ℤ) : String × ℤ :=
  if signal_score ≥ 30 then ("STRONG BUY", min 90 (60 + signal_score))
  else if signal_score ≥ 15 then ("BUY", min 75 (50 + signal_score))
  else if signal_score ≤ -30 then ("STRONG SELL", min 90 (60 + |signal_score|))
  else if signal_score ≤ -15 then ("SELL", min 75 (50 + |signal_score|))
  else ("HOLD", 40 + |signal_score|)

/-- The body of the pattern loop of generate_trading_signal, acting on
the (signal_score, reasoning) accumulator. -/
def patternStep (acc : ℤ × List String) (p : String) : ℤ × List String :=
  if pyContains "Triangle" p then
    (acc.1 + 10, acc.2 ++ ["Triangle pattern suggests breakout potential"])
  else if pyContains "Support" p then
    (acc.1 + 15, acc.2 ++ ["Strong support/resistance levels identified"])
  else acc

/-- ChartAnalyzer.generate_trading_signal. -/
def generate_trading_signal (analysis_results : Results) : SignalResult :=
  let trend := analysis_results.trend_direction
  let acc0 : ℤ × List String :=
    if pyContains "UPTREND" trend then
      if pyContains "STRONG" trend then (40, ["Strong uptrend detected"])
      else (25, ["Uptrend detected"])
    else if pyContains "DOWNTREND" trend then
      if pyContains "STRONG" trend then (-40, ["Strong downtrend detected"])
      else (-25, ["Downtrend detected"])
    else (0, [])
  let acc1 := analysis_results.patterns_detected.foldl patternStep acc0
  let acc2 : ℤ × List String :=
    if analysis_results.support_resistance.length ≥ 3 then
      (acc1.1 + 10, acc1.2 ++ ["Multiple support/resistance levels provide structure"])
    else acc1
  let sc := scoreToSignal acc2.1
  { overall_signal := sc.1
    confidence := sc.2
    recommendation := "Based on technical analysis: " ++ String.intercalate " | " acc2.2
    signal_score := acc2.1 }

/-- ChartAnalyzer.generate_technical_insights. -/
def generate_technical_insights (results : Results) : Insights :=
  let trend := results.trend_direction
  let trendText :=
    if pyContains "UPTREND" trend then
      "Bullish momentum detected. Consider long positions."
    else if pyContains "DOWNTREND" trend then
      "Bearish pressure evident. Consider short positions or exit longs."
    else "Market consolidating. Wait for clear directional break."
  let patterns := results.patterns_detected
  let patternText :=
    if patterns.isEmpty then
      "No clear patterns detected. Market may be in transition."
    else "Key patterns: " ++ String.intercalate ", " patterns ++ ". Monitor for breakouts."
  let levels := results.support_resistance
  let riskText :=
    if levels.isEmpty then
      "Limited clear levels. Use tight stops and small position sizes."
    else "Watch " ++ toString levels.length ++ " key levels. Use them for stop-loss placement."
  { trend_analysis := trendText
    pattern_analysis := patternText
    risk_management := riskText }

/-- results.update(signal_analysis): merge the signal dict into the
results dict, overwriting the shared keys and adding signal_score. -/
def applySignal (r : Results) (s : SignalResult) : Results :=
  { r with
    overall_signal := s.overall_signal
    confidence := s.confidence
    recommendation := s.recommendation
    signal_score := some s.signal_score }

/-- The external vision library as the analyzer calls it: RGB-to-gray
conversion, Canny with its two thresholds, the morphological opening
with the 40-by-1 rectangular kernel, and external contour retrieval
combined with the polygon approximation of each contour. -/
structure VisionLib (Img : Type) where
  cvtColorRGB2GRAY : Img → GrayImage
  canny : GrayImage → ℕ → ℕ → GrayImage
  morphologyOpenH40 : GrayImage → GrayImage
  findContoursApprox : GrayImage → List Contour

/-- The successful try-block of perform_chart_analysis up to (and
including) the support/resistance stage: the results dict right before
results.update(signal_analysis). -/
def preSignalResults {Img : Type} (lib : VisionLib Img) (img_array : Img) : Results :=
  let gray := lib.cvtColorRGB2GRAY img_array
  let edges := lib.canny gray 50 150
  let trend_analysis := analyze_trend_direction gray
  let r1 := { initResults with
              trend_direction := trend_analysis.direction
              confidence := trend_analysis.confidence }
  let patterns :=
    detect_chart_patterns (countPositive (lib.morphologyOpenH40 edges))
      (lib.findContoursApprox edges)
  let r2 := { r1 with patterns_detected := patterns }
  let support_resistance := find_support_resistance_levels gray
  { r2 with support_resistance := support_resistance }

/-- ChartAnalyzer.perform_chart_analysis on the path where no stage
raises: all pipeline stages run and every field is filled in. -/
def perform_chart_analysis {Img : Type} (lib : VisionLib Img) (img_array : Img) : Results :=
  let r3 := preSignalResults lib img_array
  let r4 := applySignal r3 (generate_trading_signal r3)
  { r4 with technical_analysis := some (generate_technical_insights r4) }

/-- The `self.patterns` attribute that __init__ creates: four named
empty lists.  No method of the class ever reads or writes it. -/
structure PatternsState where
  trend_lines : List String
  support_resistance : List String
  candlestick_patterns : List String
  indicators : List String
deriving DecidableEq

/-- ChartAnalyzer.__init__. -/
def initPatternsState : PatternsState :=
  ⟨[], [], [], []⟩

/-- perform_chart_analysis as a method of the analyzer object: it
threads the instance state and leaves it untouched, since the body
never mentions self.patterns. -/
def performWithState {Img : Type} (lib : VisionLib Img) (st : PatternsState)
    (img_array : Img) : PatternsState × Results :=
  (st, perform_chart_analysis lib img_array)

/-- ChartAnalyzer.analyze_uploaded_chart: on a file it decodes the
image (Image.open and np.array, modelled by the openImage parameter),
analyses it and returns the result; on None it returns None. -/
def analyze_uploaded_chart {File Img : Type} (openImage : File → Img)
    (lib : VisionLib Img) (uploaded_file : Option File) : Option Results :=
  match uploaded_file with
  | some f => some (perform_chart_analysis lib (openImage f))
  | none => none

/-- The except-branch of perform_chart_analysis: only the
recommendation key is overwritten; everything already stored stays. -/
def failedResults (r : Results) : Results :=
  { r with recommendation := "Unable to analyze chart. Please try a clearer image." }

/-- The last two try-block statements of perform_chart_analysis as
fallible stages, given the results dict r3 produced by the first three
analysis stages: results.update(signal_analysis), then the insight
assignment.  A stage returning Except.error stands for a Python
exception at that statement; control then jumps to the except-handler,
which sees the results dict as mutated so far. -/
def excFromSignal (signalE : Results → Except Unit SignalResult)
    (insightsE : Results → Except Unit Insights) (r3 : Results) : Results :=
  match signalE r3 with
  | .error _ => failedResults r3
  | .ok sig =>
    let r4 := applySignal r3 sig
    match insightsE r4 with
    | .error _ => failedResults r4
    | .ok ins => { r4 with technical_analysis := some ins }

/-- perform_chart_analysis with each try-block statement modelled as a
fallible stage, continuing into excFromSignal for the last two
statements. -/
def perform_chart_analysis_exc
    (grayE : Except Unit GrayImage)
    (edgesE : GrayImage → Except Unit GrayImage)
    (trendE : GrayImage → Except Unit TrendResult)
    (patternsE : GrayImage → GrayImage → Except Unit (List String))
    (levelsE : GrayImage → Except Unit (List Level))
    (signalE : Results → Except Unit SignalResult)
    (insightsE : Results → Except Unit Insights) : Results :=
  match grayE with
  | .error _ => failedResults initResults
  | .ok gray =>
    match edgesE gray with
    | .error _ => failedResults initResults
    | .ok edges =>
      match trendE gray with
      | .error _ => failedResults initResults
      | .ok t =>
        let r1 := { initResults with
                    trend_direction := t.direction
                    confidence := t.confidence }
        match patternsE gray edges with
        | .error _ => failedResults r1
        | .ok pats =>
          let r2 := { r1 with patterns_detected := pats }
          match levelsE gray with
          | .error _ => failedResults r2
          | .ok lvls =>
            excFromSignal signalE insightsE { r2 with support_resistance := lvls }

/-- The score accumulation exactly as the specification sentence words
it, for comparison with generate_trading_signal: every rule fires
independently of the others, so a pattern string containing both
Triangle and Support would contribute both 10 and 15. -/
def claimedSignalScore (r : Results) : ℤ :=
  (if pyContains "UPTREND" r.trend_direction then
     (if pyContains "STRONG" r.trend_direction then 40 else 25) else 0)
  + (if pyContains "DOWNTREND" r.trend_direction then
       (if pyContains "STRONG" r.trend_direction then -40 else -25) else 0)
  + (r.patterns_detected.map fun p =>
       (if pyContains "Triangle" p then 10 else 0)
         + (if pyContains "Support" p then 15 else 0)).sum
  + (if 3 ≤ r.support_resistance.length then 10 else 0)

/-- The trend contribution to the signal score, with the branch
precedence of the source: the uptrend test shadows the downtrend
test. -/
def trendScoreAmended (t : String) : ℤ :=
  if pyContains "UPTREND" t then
    (if pyContains "STRONG" t then 40 else 25)
  else if pyContains "DOWNTREND" t then
    (if pyContains "STRONG" t then -40 else -25)
  else 0

/-- The rationale fragments the trend branch appends. -/
def trendReasonsAmended (t : String) : List String :=
  if pyContains "UPTREND" t then
    (if pyContains "STRONG" t then ["Strong uptrend detected"] else ["Uptrend detected"])
  else if pyContains "DOWNTREND" t then
    (if pyContains "STRONG" t then ["Strong downtrend detected"] else ["Downtrend detected"])
  else []

/-- The per-pattern score contribution, with the branch precedence of
the source: the Triangle test shadows the Support test. -/
def patternScoreAmended (p : String) : ℤ :=
  if pyContains "Triangle" p then 10
  else if pyContains "Support" p then 15
  else 0

/-- The rationale fragment one pattern appends. -/
def patternReasonsAmended (p : String) : List String :=
  if pyContains "Triangle" p then ["Triangle pattern suggests breakout potential"]
  else if pyContains "Support" p then ["Strong support/resistance levels identified"]
  else []

/-- A 2x2 all-black buffer: no pixel is strictly brighter than the
85th percentile of its right region, so the trend stage degrades to
NEUTRAL. -/
def imgFlat : GrayImage :=
  [[0, 0], [0, 0]]

/-- A 30x10 buffer whose rightmost three columns carry a bright band
descending by four rows per column step (price rising to the right):
12 bright pixels against 78 dark region pixels, least-squares slope
-4. -/
def imgUp : GrayImage :=
  (List.range 30).map fun r =>
    (List.range 10).map fun c =>
      if 7 ≤ c ∧ 15 ≤ r + 4 * (c - 7) ∧ r + 4 * (c - 7) ≤ 18 then 255 else 0

/-- An analysis-results dict whose single pattern string contains both
Triangle and Support, separating the source's elif from the
specification's independent rules. -/
def mixedPatternInput : Results :=
  { initResults with patterns_detected := ["Triangle Support"] }

/-- A pipeline run in which every stage succeeds except insight
generation: the trend stage reported a strong uptrend and the scoring
stage already merged its dict when the exception hits. -/
def c4FaultRun : Results :=
  perform_chart_analysis_exc (.ok imgFlat) (fun _ => .ok imgFlat)
    (fun _ => .ok ⟨"STRONG_UPTREND", 80⟩) (fun _ _ => .ok []) (fun _ => .ok [])
    (fun r => .ok (generate_trading_signal r)) (fun _ => .error ())

theorem find_peaks_pairwise (data : List ℕ) (h : Option ℚ) :
    List.Pairwise (· < ·) (find_peaks data h) :=
  List.Pairwise.sublist (List.filter_sublist _) (List.pairwise_lt_range' 1 (data.length - 2))

theorem mem_find_peaks (data : List ℕ) (hq : ℚ) (i : ℕ) :
    i ∈ find_peaks data (some hq) ↔
      1 ≤ i ∧ i + 1 < data.length ∧
      data.getD (i - 1) 0 < data.getD i 0 ∧
      data.getD (i + 1) 0 < data.getD i 0 ∧
      hq ≤ (data.getD i 0 : ℚ) := by
  unfold find_peaks
  simp only [List.mem_filter, List.mem_range'_1, Bool.and_eq_true, decide_eq_true_eq,
    gt_iff_lt, ge_iff_le]
  constructor
  · rintro ⟨⟨h1, h2⟩, ⟨h3, h4⟩, h5⟩
    exact ⟨h1, by omega, h3, h4, h5⟩
  · rintro ⟨h1, h2, h3, h4, h5⟩
    exact ⟨⟨h1, by omega⟩, ⟨h3, h4⟩, h5⟩

/-- Claim C5: the analysis pipeline is deterministic.  Running
perform_chart_analysis twice on the same pixel array, threading the
analyzer's instance state through both calls, yields identical result
dictionaries, and a call leaves the instance state unchanged. -/
theorem perform_chart_analysis_deterministic {Img : Type} (lib : VisionLib Img)
    (st : PatternsState) (img_array : Img) :
    (performWithState lib (performWithState lib st img_array).1 img_array).2
        = (performWithState lib st img_array).2 ∧
      (performWithState lib st img_array).1 = st :=
  ⟨rfl, rfl⟩

/-- Claim C6: every returned result has at most five detected patterns
and at most five support/resistance levels; detect_chart_patterns is
the first-five truncation of the emitted labels in detection order, and
the peak list that find_support_resistance_levels draws its first five
entries from is strictly ascending in row order. -/
theorem result_list_bounds {Img : Type} (lib : VisionLib Img) (img_array : Img)
    (hs : ℕ) (cs : List Contour) (gray : GrayImage) :
    (perform_chart_analysis lib img_array).patterns_detected.length ≤ 5 ∧
    (perform_chart_analysis lib img_array).support_resistance.length ≤ 5 ∧
    detect_chart_patterns hs cs = (emittedPatterns hs cs).take 5 ∧
    List.Pairwise (· < ·)
      (find_peaks (horizontalProjection gray) (some (peakHeight gray))) := by
  refine ⟨?_, ?_, rfl, find_peaks_pairwise _ _⟩
  · show (detect_chart_patterns _ _).length ≤ 5
    unfold detect_chart_patterns
    exact List.length_take_le 5 _
  · show (find_support_resistance_levels _).length ≤ 5
    unfold find_support_resistance_levels
    simp only [List.length_map]
    exact List.length_take_le 5 _

/-- Claim C8 (counterexample): on data [0, 5, 0] with minimum height 5
the fallback peak finder returns index 1 although its value 5 does not
strictly exceed the threshold - the filter is inclusive, data[i] >=
height. -/
theorem find_peaks_at_threshold :
    find_peaks [0, 5, 0] (some 5) = [1] ∧
      ¬ ((([0, 5, 0].getD 1 0 : ℕ) : ℚ) > 5) :=
  ⟨by decide, by decide⟩

/-- Claim C8 (amended): the fallback peak finder returns, in strictly
ascending order, exactly the interior indices whose value is strictly
greater than both immediate neighbours and greater than or equal to the
minimum-height threshold; the first and last positions never qualify. -/
theorem find_peaks_characterization (data : List ℕ) (hq : ℚ) (i : ℕ) :
    (i ∈ find_peaks data (some hq) ↔
      1 ≤ i ∧ i + 1 < data.length ∧
      data.getD (i - 1) 0 < data.getD i 0 ∧
      data.getD (i + 1) 0 < data.getD i 0 ∧
      hq ≤ (data.getD i 0 : ℚ)) ∧
    List.Pairwise (· < ·) (find_peaks data (some hq)) :=
  ⟨mem_find_peaks data hq i, find_peaks_pairwise data (some hq)⟩

/-- Claim C9: whenever the numeric stages complete, the returned result
carries the extra signal_score key, holding the raw accumulated score
that results.update merged in from the signal dict. -/
theorem perform_chart_analysis_signal_score {Img : Type} (lib : VisionLib Img)
    (img_array : Img) :
    (perform_chart_analysis lib img_array).signal_score =
      some (generate_trading_signal (preSignalResults lib img_array)).signal_score :=
  rfl

/-- Claim C10: analyze_uploaded_chart called with None skips all
processing and returns None. -/
theorem analyze_uploaded_chart_none {File Img : Type} (openImage : File → Img)
    (lib : VisionLib Img) :
    analyze_uploaded_chart openImage lib none = none :=
  rfl

theorem foldl_patternStep (ps : List String) (s : ℤ) (rs : List String) :
    ps.foldl patternStep (s, rs) =
      (s + (ps.map patternScoreAmended).sum, rs ++ ps.flatMap patternReasonsAmended) := by
  induction ps generalizing s rs with
  | nil => simp
  | cons p ps ih =>
    simp only [List.foldl_cons, List.map_cons, List.sum_cons, List.flatMap_cons,
      patternStep, patternScoreAmended, patternReasonsAmended]
    split_ifs <;> simp [ih, List.append_assoc] <;> ring

/-- Claim C1 (amended): generate_trading_signal accumulates the score
as the sum of a trend contribution, one contribution per pattern, and
the level bonus, and the recommendation is the fixed prefix followed by
the triggered rationale fragments joined with the bar separator - with
the source's branch precedence: the uptrend test shadows the downtrend
test, and within one pattern the Triangle test shadows the Support
test, so a pattern containing both contributes only 10. -/
theorem generate_trading_signal_decomposition (r : Results) :
    (generate_trading_signal r).signal_score =
      trendScoreAmended r.trend_direction
        + (r.patterns_detected.map patternScoreAmended).sum
        + (if 3 ≤ r.support_resistance.length then 10 else 0) ∧
    (generate_trading_signal r).recommendation =
      "Based on technical analysis: " ++ String.intercalate " | "
        (trendReasonsAmended r.trend_direction
          ++ r.patterns_detected.flatMap patternReasonsAmended
          ++ if 3 ≤ r.support_resistance.length
             then ["Multiple support/resistance levels provide structure"] else []) := by
  have hacc : (if pyContains "UPTREND" r.trend_direction then
        if pyContains "STRONG" r.trend_direction then ((40 : ℤ), ["Strong uptrend detected"])
        else (25, ["Uptrend detected"])
      else if pyContains "DOWNTREND" r.trend_direction then
        if pyContains "STRONG" r.trend_direction then (-40, ["Strong downtrend detected"])
        else (-25, ["Downtrend detected"])
      else (0, [])) =
      (trendScoreAmended r.trend_direction, trendReasonsAmended r.trend_direction) := by
    unfold trendScoreAmended trendReasonsAmended
    split_ifs <;> rfl
  unfold generate_trading_signal
  simp only [hacc, foldl_patternStep]
  split_ifs with h3 <;> constructor <;> simp [add_assoc, List.append_assoc]

/-- Claim C1 (counterexample): on an input whose single pattern string
contains both Triangle and Support, the source's elif awards only 10
while the claim's independent per-rule accumulation yields 25. -/
theorem generate_trading_signal_claim_gap :
    (generate_trading_signal mixedPatternInput).signal_score = 10 ∧
    claimedSignalScore mixedPatternInput = 25 ∧
    (generate_trading_signal mixedPatternInput).signal_score ≠
      claimedSignalScore mixedPatternInput := by
  refine ⟨by decide, by decide, by decide⟩

/-- Claim C2: analyze_trend_direction returns NEUTRAL with confidence
30 when fewer than 11 region pixels lie strictly above the region's
85th percentile, and otherwise classifies the least-squares slope of
the bright-pixel coordinates by the fixed thresholds; being a total
function of the buffer, the stage never fails. -/
theorem analyze_trend_direction_spec (gray : GrayImage) :
    ((brightPixels gray).length < 11 →
      analyze_trend_direction gray = ⟨"NEUTRAL", 30⟩) ∧
    (11 ≤ (brightPixels gray).length →
      (lstSlope (brightPixels gray) < -2 →
        analyze_trend_direction gray = ⟨"STRONG_UPTREND", 80⟩) ∧
      (-2 ≤ lstSlope (brightPixels gray) →
        lstSlope (brightPixels gray) < Rat.divInt (-1) 2 →
        analyze_trend_direction gray = ⟨"UPTREND", 65⟩) ∧
      (2 < lstSlope (brightPixels gray) →
        analyze_trend_direction gray = ⟨"STRONG_DOWNTREND", 80⟩) ∧
      (Rat.divInt 1 2 < lstSlope (brightPixels gray) →
        lstSlope (brightPixels gray) ≤ 2 →
        analyze_trend_direction gray = ⟨"DOWNTREND", 65⟩) ∧
      (Rat.divInt (-1) 2 ≤ lstSlope (brightPixels gray) →
        lstSlope (brightPixels gray) ≤ Rat.divInt 1 2 →
        analyze_trend_direction gray = ⟨"SIDEWAYS", 50⟩)) := by
  have c1 : (-2 : ℚ) < Rat.divInt (-1) 2 := by decide
  have c2 : Rat.divInt (-1) 2 < Rat.divInt 1 2 := by decide
  have c3 : Rat.divInt 1 2 < (2 : ℚ) := by decide
  constructor
  · intro h
    have hn : ¬ (brightPixels gray).length > 10 := by omega
    unfold analyze_trend_direction
    simp only [if_neg hn]
  · intro h
    have h10 : (brightPixels gray).length > 10 := by omega
    have h1 : (brightPixels gray).length > 1 := by omega
    unfold analyze_trend_direction
    simp only [if_pos h10, if_pos h1]
    refine ⟨?_, ?_, ?_, ?_, ?_⟩
    · intro hs
      simp only [if_pos hs]
    · intro hs1 hs2
      rw [if_neg (by linarith), if_pos hs2]
    · intro hs
      rw [if_neg (by linarith), if_neg (by linarith), if_pos hs]
    · intro hs1 hs2
      rw [if_neg (by linarith), if_neg (by linarith), if_neg (by linarith), if_pos hs1]
    · intro hs1 hs2
      rw [if_neg (by linarith), if_neg (by linarith), if_neg (by linarith),
        if_neg (by linarith)]

/-- Claim C2 (witness): the all-black 2x2 buffer has no bright pixels
and degrades to NEUTRAL, while the buffer with a bright band rising to
the right has 12 bright pixels, slope -4, and classifies as
STRONG_UPTREND with confidence 80. -/
theorem analyze_trend_direction_spec_witness :
    ((brightPixels imgFlat).length < 11 ∧
      analyze_trend_direction imgFlat = ⟨"NEUTRAL", 30⟩) ∧
    (11 ≤ (brightPixels imgUp).length ∧ lstSlope (brightPixels imgUp) < -2 ∧
      analyze_trend_direction imgUp = ⟨"STRONG_UPTREND", 80⟩) :=
  ⟨⟨by decide, (analyze_trend_direction_spec imgFlat).1 (by decide)⟩,
   ⟨by decide, by decide,
    ((analyze_trend_direction_spec imgUp).2 (by decide)).1 (by decide)⟩⟩

/-- Claim C3: for every integer score the five label buckets are
disjoint and exhaustive, the returned confidence lies in [0, 90], the
BUY and SELL branches are additionally bounded by 75, and the HOLD
branch computes 40 plus the absolute score, which stays within the
bounds because a HOLD score is below 15 in magnitude. -/
theorem scoreToSignal_buckets (s : ℤ) :
    ((30 ≤ s) ∨ (15 ≤ s ∧ s < 30) ∨ (-15 < s ∧ s < 15) ∨ (-30 < s ∧ s ≤ -15) ∨ s ≤ -30) ∧
    ((scoreToSignal s).1 = "STRONG BUY" ↔ 30 ≤ s) ∧
    ((scoreToSignal s).1 = "BUY" ↔ 15 ≤ s ∧ s < 30) ∧
    ((scoreToSignal s).1 = "HOLD" ↔ -15 < s ∧ s < 15) ∧
    ((scoreToSignal s).1 = "SELL" ↔ -30 < s ∧ s ≤ -15) ∧
    ((scoreToSignal s).1 = "STRONG SELL" ↔ s ≤ -30) ∧
    0 ≤ (scoreToSignal s).2 ∧ (scoreToSignal s).2 ≤ 90 ∧
    (((scoreToSignal s).1 = "BUY" ∨ (scoreToSignal s).1 = "SELL") →
      (scoreToSignal s).2 ≤ 75) ∧
    (-15 < s → s < 15 → (scoreToSignal s).2 = 40 + |s| ∧ 40 + |s| ≤ 90) := by
  unfold scoreToSignal
  split_ifs with h1 h2 h3 h4 <;> dsimp only
  · refine ⟨by omega, iff_of_true rfl h1, iff_of_false (by decide) (by omega),
      iff_of_false (by decide) (by omega), iff_of_false (by decide) (by omega),
      iff_of_false (by decide) (by omega), by omega, by omega, ?_, ?_⟩
    · rintro (hc | hc) <;> exact absurd hc (by decide)
    · intro hlo hhi
      exact absurd hlo (by omega)
  · refine ⟨by omega, iff_of_false (by decide) (by omega), iff_of_true rfl (by omega),
      iff_of_false (by decide) (by omega), iff_of_false (by decide) (by omega),
      iff_of_false (by decide) (by omega), by omega, by omega, fun _ => by omega, ?_⟩
    intro hlo hhi
    exact absurd hhi (by omega)
  · rw [abs_of_nonpos (by omega : s ≤ 0)]
    refine ⟨by omega, iff_of_false (by decide) (by omega),
      iff_of_false (by decide) (by omega), iff_of_false (by decide) (by omega),
      iff_of_false (by decide) (by omega), iff_of_true rfl h3, by omega,
      by omega, ?_, ?_⟩
    · rintro (hc | hc) <;> exact absurd hc (by decide)
    · intro hlo hhi
      exact absurd hlo (by omega)
  · rw [abs_of_nonpos (by omega : s ≤ 0)]
    refine ⟨by omega, iff_of_false (by decide) (by omega),
      iff_of_false (by decide) (by omega), iff_of_false (by decide) (by omega),
      iff_of_true rfl (by omega), iff_of_false (by decide) (by omega), by omega,
      by omega, fun _ => by omega, ?_⟩
    intro hlo hhi
    exact absurd hhi (by omega)
  · have habs : |s| = s ∨ |s| = -s := abs_choice s
    refine ⟨by omega, iff_of_false (by decide) (by omega),
      iff_of_false (by decide) (by omega), iff_of_true rfl (by omega),
      iff_of_false (by decide) (by omega), iff_of_false (by decide) (by omega),
      ?_, ?_, ?_, ?_⟩
    · rcases habs with he | he <;> rw [he] <;> omega
    · rcases habs with he | he <;> rw [he] <;> omega
    · rintro (hc | hc) <;> exact absurd hc (by decide)
    · intro hlo hhi
      refine ⟨rfl, ?_⟩
      rcases habs with he | he <;> rw [he] <;> omega

/-- Claim C3 (witness): the score 0 falls in the HOLD bucket with
confidence 40 plus its absolute value. -/
theorem scoreToSignal_buckets_witness :
    (scoreToSignal 0).1 = "HOLD" ∧ (scoreToSignal 0).2 = 40 + |(0 : ℤ)| :=
  ⟨((scoreToSignal_buckets 0).2.2.2.1).mpr ⟨by decide, by decide⟩,
   (((scoreToSignal_buckets 0).2.2.2.2.2.2.2.2.2) (by decide) (by decide)).1⟩

theorem excFromSignal_spec (signalE : Results → Except Unit SignalResult)
    (insightsE : Results → Except Unit Insights) (r3 : Results)
    (hos : r3.overall_signal = "HOLD") :
    ((excFromSignal signalE insightsE r3).technical_analysis = none →
      (excFromSignal signalE insightsE r3).recommendation =
        "Unable to analyze chart. Please try a clearer image.") ∧
    ((excFromSignal signalE insightsE r3).signal_score = none →
      (excFromSignal signalE insightsE r3).overall_signal = "HOLD") := by
  unfold excFromSignal
  rcases hS : signalE r3 with e | sig
  · exact ⟨fun _ => rfl, fun _ => hos⟩
  dsimp only
  rcases hI : insightsE (applySignal r3 sig) with e | ins
  · refine ⟨fun _ => rfl, fun h => ?_⟩
    exact absurd h (by simp [failedResults, applySignal])
  · refine ⟨fun h => ?_, fun h => ?_⟩
    · exact absurd h (by simp)
    · exact absurd h (by simp [applySignal])

/-- Claim C4 (amended): whenever any stage of the try-block fails, the
top-level handler returns the partially updated results dict with the
recommendation overwritten by the generic unable-to-analyze message;
overall_signal is still HOLD whenever the scoring stage had not yet
merged its dict, but fields written by stages that completed before the
failure - confidence among them - keep their computed values rather
than the HOLD/0 defaults. -/
theorem perform_chart_analysis_exc_spec
    (grayE : Except Unit GrayImage)
    (edgesE : GrayImage → Except Unit GrayImage)
    (trendE : GrayImage → Except Unit TrendResult)
    (patternsE : GrayImage → GrayImage → Except Unit (List String))
    (levelsE : GrayImage → Except Unit (List Level))
    (signalE : Results → Except Unit SignalResult)
    (insightsE : Results → Except Unit Insights) :
    ((perform_chart_analysis_exc grayE edgesE trendE patternsE levelsE signalE
          insightsE).technical_analysis = none →
        (perform_chart_analysis_exc grayE edgesE trendE patternsE levelsE signalE
          insightsE).recommendation =
          "Unable to analyze chart. Please try a clearer image.") ∧
      ((perform_chart_analysis_exc grayE edgesE trendE patternsE levelsE signalE
          insightsE).signal_score = none →
        (perform_chart_analysis_exc grayE edgesE trendE patternsE levelsE signalE
          insightsE).overall_signal = "HOLD") := by
  unfold perform_chart_analysis_exc
  rcases grayE with e | gray
  · exact ⟨fun _ => rfl, fun _ => rfl⟩
  dsimp only
  rcases hE : edgesE gray with e | edges
  · exact ⟨fun _ => rfl, fun _ => rfl⟩
  dsimp only
  rcases hT : trendE gray with e | t
  · exact ⟨fun _ => rfl, fun _ => rfl⟩
  dsimp only
  rcases hP : patternsE gray edges with e | pats
  · exact ⟨fun _ => rfl, fun _ => rfl⟩
  dsimp only
  rcases hL : levelsE gray with e | lvls
  · exact ⟨fun _ => rfl, fun _ => rfl⟩
  dsimp only
  exact excFromSignal_spec signalE insightsE _ rfl

/-- Claim C4 (counterexample): with every stage succeeding except
insight generation, the handler's result keeps the merged signal: the
recommendation is the generic message, but overall_signal is STRONG BUY
and confidence 90, not HOLD and 0 as the claim states. -/
theorem c4FaultRun_not_default :
    c4FaultRun.recommendation = "Unable to analyze chart. Please try a clearer image." ∧
    c4FaultRun.overall_signal = "STRONG BUY" ∧ c4FaultRun.confidence = 90 ∧
    c4FaultRun.overall_signal ≠ "HOLD" ∧ c4FaultRun.confidence ≠ 0 := by
  refine ⟨by decide, by decide, by decide, by decide, by decide⟩

/-- Claim C4 (witness): when the very first stage fails, the handler
returns the generic recommendation over the untouched defaults. -/
theorem perform_chart_analysis_exc_spec_witness :
    (perform_chart_analysis_exc (.error ()) (fun _ => .ok imgFlat)
        (fun g => .ok (analyze_trend_direction g)) (fun _ _ => .ok [])
        (fun g => .ok (find_support_resistance_levels g))
        (fun r => .ok (generate_trading_signal r))
        (fun r => .ok (generate_technical_insights r))).recommendation =
      "Unable to analyze chart. Please try a clearer image." ∧
    (perform_chart_analysis_exc (.error ()) (fun _ => .ok imgFlat)
        (fun g => .ok (analyze_trend_direction g)) (fun _ _ => .ok [])
        (fun g => .ok (find_support_resistance_levels g))
        (fun r => .ok (generate_trading_signal r))
        (fun r => .ok (generate_technical_insights r))).overall_signal = "HOLD" :=
  ⟨(perform_chart_analysis_exc_spec _ _ _ _ _ _ _).1 rfl,
   (perform_chart_analysis_exc_spec _ _ _ _ _ _ _).2 rfl⟩

/-- Claim C7: generate_technical_insights is a pure function of the
triple (trend_direction, patterns_detected, support_resistance) -
results agreeing on the triple yield identical text - and the three
sentences are keyed exactly by the uptrend/downtrend substring tests,
by emptiness of the pattern list (listing all patterns when
non-empty), and by emptiness of the level list (stating the count when
non-empty). -/
theorem generate_technical_insights_spec (r r' : Results) :
    (r.trend_direction = r'.trend_direction →
      r.patterns_detected = r'.patterns_detected →
      r.support_resistance = r'.support_resistance →
      generate_technical_insights r = generate_technical_insights r') ∧
    (pyContains "UPTREND" r.trend_direction = true →
      (generate_technical_insights r).trend_analysis =
        "Bullish momentum detected. Consider long positions.") ∧
    (pyContains "UPTREND" r.trend_direction = false →
      pyContains "DOWNTREND" r.trend_direction = true →
      (generate_technical_insights r).trend_analysis =
        "Bearish pressure evident. Consider short positions or exit longs.") ∧
    (pyContains "UPTREND" r.trend_direction = false →
      pyContains "DOWNTREND" r.trend_direction = false →
      (generate_technical_insights r).trend_analysis =
        "Market consolidating. Wait for clear directional break.") ∧
    (r.patterns_detected = [] →
      (generate_technical_insights r).pattern_analysis =
        "No clear patterns detected. Market may be in transition.") ∧
    (r.patterns_detected ≠ [] →
      (generate_technical_insights r).pattern_analysis =
        "Key patterns: " ++ String.intercalate ", " r.patterns_detected
          ++ ". Monitor for breakouts.") ∧
    (r.support_resistance = [] →
      (generate_technical_insights r).risk_management =
        "Limited clear levels. Use tight stops and small position sizes.") ∧
    (r.support_resistance ≠ [] →
      (generate_technical_insights r).risk_management =
        "Watch " ++ toString r.support_resistance.length
          ++ " key levels. Use them for stop-loss placement.") := by
  refine ⟨?_, ?_, ?_, ?_, ?_, ?_, ?_, ?_⟩
  · intro h1 h2 h3
    unfold generate_technical_insights
    rw [h1, h2, h3]
  · intro hu
    unfold generate_technical_insights
    simp only [hu, if_true]
  · intro hu hd
    unfold generate_technical_insights
    simp only [hu, hd, Bool.false_eq_true, if_false, if_true]
  · intro hu hd
    unfold generate_technical_insights
    simp only [hu, hd, Bool.false_eq_true, if_false]
  · intro hp
    unfold generate_technical_insights
    simp only [hp, List.isEmpty_nil, if_true]
  · intro hp
    unfold generate_technical_insights
    simp only [List.isEmpty_eq_true]
    rw [if_neg hp]
  · intro hl
    unfold generate_technical_insights
    simp only [hl, List.isEmpty_nil, if_true]
  · intro hl
    unfold generate_technical_insights
    simp only [List.isEmpty_eq_true]
    rw [if_neg hl]

/-- Claim C7 (witness): on the initial results dict (NEUTRAL trend, no
patterns, no levels) the three fallback sentences are produced, and
rerunning on the same triple reproduces them. -/
theorem generate_technical_insights_spec_witness :
    generate_technical_insights initResults =
      ⟨"Market consolidating. Wait for clear directional break.",
       "No clear patterns detected. Market may be in transition.",
       "Limited clear levels. Use tight stops and small position sizes."⟩ := by
  have h := generate_technical_insights_spec initResults initResults
  have ht := h.2.2.2.1 (by decide) (by decide)
  have hp := h.2.2.2.2.1 rfl
  have hr := h.2.2.2.2.2.2.1 rfl
  rw [← ht, ← hp, ← hr]
